import Mathlib

/-!
Shallow embedding of the Pangolin `VideoViewer` playback controller
(`src/Pangolin/src/tools/video_viewer.cpp`).

The controller state mirrors the member variables initialised in the
`VideoViewer` constructor (lines 22-40): `current_frame` starts at -1,
`grab_until` at `std::numeric_limits<int>::max()`, `record_nth_frame` at 1,
`video_grab_wait` true, `video_grab_newest` false, and `video_playback`
(the optional seek interface) unbound.

External collaborators (the video source's `Seek`/`Grab`/`IsRecording`, the
slider widget) are modelled by passing their results into each operation as
explicit parameters: the controller's own logic is translated verbatim,
while collaborator behaviour stays an oracle.
-/

namespace VideoViewer

/-- `std::numeric_limits<int>::max()`, the free-run sentinel for `grab_until`. -/
def intMax : Int := 2147483647

/-- Controller state: the member variables of `VideoViewer` that the playback
logic reads and writes.  `video_playback` records whether
`FindFirstMatchingVideoInterface<VideoPlaybackInterface>` bound a seek
interface (the C++ pointer being non-null). -/
structure VVState where
  current_frame : Int
  grab_until : Int
  record_nth_frame : Int
  video_grab_wait : Bool
  video_grab_newest : Bool
  video_playback : Bool
  deriving Repr, DecidableEq

/-- The state established by the `VideoViewer` constructor (lines 22-40)
before any `OpenInput` call. -/
def vvInit : VVState :=
  { current_frame := -1
    grab_until := intMax
    record_nth_frame := 1
    video_grab_wait := true
    video_grab_newest := false
    video_playback := false }

/-- What `OpenInput` learns from the freshly opened source: how many streams
`video.Streams()` reports, whether a `VideoPlaybackInterface` is found, and
the total frame count the playback interface reports. -/
structure SourceInfo where
  numStreams : Nat
  hasPlayback : Bool
  totalFrames : Int
  deriving Repr, DecidableEq

/-- Modelled from the spec: `VideoViewer::TotalFrames` is declared in
`pangolin/tools/video_viewer.h`, which is not part of this repository slice.
Per the spec's external interface `TotalFrameCount() -> integer | unbounded`,
it reports the bound playback interface's total frame count, and the
`std::numeric_limits<int>::max()` sentinel (unbounded) when no playback
interface is bound. -/
def TotalFrames (hasPlayback : Bool) (srcTotal : Int) : Int :=
  if hasPlayback then srcTotal else intMax

/-- `VideoViewer::OpenInput` (lines 182-210).  Returns the new state and
whether the zero-stream `SourceError` was reported.  With zero streams the
function prints the error and returns early, before `video_playback` and
`grab_until` are touched; otherwise it binds the playback interface and,
when `TotalFrames() < INT_MAX`, sets `grab_until = 0`. -/
def OpenInput (s : VVState) (src : SourceInfo) : VVState × Bool :=
  if src.numStreams = 0 then
    (s, true)
  else
    let s1 := { s with video_playback := src.hasPlayback }
    if TotalFrames src.hasPlayback src.totalFrames < intMax then
      ({ s1 with grab_until := 0 }, false)
    else
      (s1, false)

/-- `VideoViewer::TogglePlay` (lines 238-242):
`grab_until = (current_frame < grab_until) ? current_frame : INT_MAX`. -/
def TogglePlay (s : VVState) : VVState :=
  { s with grab_until :=
      if s.current_frame < s.grab_until then s.current_frame else intMax }

/-- `VideoViewer::Skip` (lines 280-295).  `seekResult` is what the external
`video_playback->Seek(current_frame + frames)` call returns when the source
is seekable (it is ignored otherwise).  Returns the new state and whether the
"Unable to skip backward." warning was printed. -/
def Skip (s : VVState) (frames : Int) (seekResult : Int) : VVState × Bool :=
  if s.video_playback then
    let cf := seekResult - 1
    ({ s with current_frame := cf, grab_until := cf + 1 }, false)
  else
    if frames ≥ 0 then
      ({ s with grab_until := s.current_frame + frames }, false)
    else
      (s, true)

/-- `VideoViewer::ToggleWaitForFrames` (lines 269-278). -/
def ToggleWaitForFrames (s : VVState) : VVState :=
  { s with video_grab_wait := !s.video_grab_wait }

/-- `VideoViewer::ToggleDiscardBufferedFrames` (lines 258-267). -/
def ToggleDiscardBufferedFrames (s : VVState) : VVState :=
  { s with video_grab_newest := !s.video_grab_newest }

/-- External recorder state: `video.IsRecording()`. -/
structure RecState where
  recording : Bool
  deriving Repr, DecidableEq

/-- `VideoViewer::StopRecording` (lines 230-236).  Returns the controller
state, the recorder state, and whether `video.Stop()` was invoked. -/
def StopRecording (s : VVState) (r : RecState) : VVState × RecState × Bool :=
  if r.recording then
    (s, { recording := false }, true)
  else
    (s, r, false)

/-- `VideoViewer::ToggleRecord` (lines 244-256): starts the recorder with the
configured every-Nth throttle when idle, stops it when recording.  The
controller state itself is untouched. -/
def ToggleRecord (s : VVState) (r : RecState) : VVState × RecState :=
  if !r.recording then
    (s, { recording := true })
  else
    (s, { recording := false })

/-- `VideoViewer::RecordOneFrame` (lines 224-228): forwards to
`video.RecordOneFrame()`; the controller state is untouched. -/
def RecordOneFrame (s : VVState) : VVState :=
  s

/-- The per-tick external inputs to the loop body of `VideoViewer::Run`
(lines 141-159): whether the slider widget reported `frame.GuiChanged()`,
the value the user dragged the bound `ui.frame` variable to, what
`video_playback->Seek(frame)` returns if called, and whether `video.Grab`
succeeds if called. -/
structure TickInput where
  guiChanged : Bool
  sliderPos : Int
  seekResult : Int
  grabSuccess : Bool
  deriving Repr, DecidableEq

/-- The slider block of the tick (lines 144-149).  The `ui.frame` variable is
attached to `current_frame`, so a user drag has already written `sliderPos`
into it; then, when a playback interface is bound,
`frame = video_playback->Seek(frame) - 1`; finally `grab_until = frame + 1`
unconditionally. -/
def sliderStep (s : VVState) (inp : TickInput) : VVState :=
  if inp.guiChanged then
    if s.video_playback then
      let f := inp.seekResult - 1
      { s with current_frame := f, grab_until := f + 1 }
    else
      { s with current_frame := inp.sliderPos, grab_until := inp.sliderPos + 1 }
  else
    s

/-- Result of one tick: the new state, whether `video.Grab` was called, and
whether grabbed images were forwarded to the stream views. -/
structure TickResult where
  state : VVState
  attempted : Bool
  forwarded : Bool
  deriving Repr, DecidableEq

/-- The loop body of `VideoViewer::Run` (lines 141-159): the slider block,
then `if (frame < grab_until && video.Grab(...)) { frame = frame + 1; ... }`.
`video.Grab` is called exactly when `frame < grab_until` (short-circuit
`&&`); on success `frame` is incremented and the images are pushed to the
display. -/
def Tick (s : VVState) (inp : TickInput) : TickResult :=
  let m := sliderStep s inp
  if m.current_frame < m.grab_until then
    if inp.grabSuccess then
      { state := { m with current_frame := m.current_frame + 1 }
        attempted := true
        forwarded := true }
    else
      { state := m, attempted := true, forwarded := false }
  else
    { state := m, attempted := false, forwarded := false }

/-- `clamp(i, lo, hi)` as used by the spec's seek semantics. -/
def clampInt (lo hi i : Int) : Int :=
  max lo (min hi i)

/-- One controller operation together with the external inputs it consumes,
for stating state-machine invariants over all of them. -/
inductive Op where
  | openInput (src : SourceInfo)
  | tick (inp : TickInput)
  | togglePlay
  | skip (frames : Int) (seekResult : Int)
  | toggleRecord (r : RecState)
  | recordOne
  | toggleWait
  | toggleDiscard
  | stopRecording (r : RecState)

/-- The controller-state effect of one operation. -/
def step (op : Op) (s : VVState) : VVState :=
  match op with
  | .openInput src => (OpenInput s src).1
  | .tick inp => (Tick s inp).state
  | .togglePlay => TogglePlay s
  | .skip frames seekResult => (Skip s frames seekResult).1
  | .toggleRecord r => (ToggleRecord s r).1
  | .recordOne => RecordOneFrame s
  | .toggleWait => ToggleWaitForFrames s
  | .toggleDiscard => ToggleDiscardBufferedFrames s
  | .stopRecording r => (StopRecording s r).1

/-- Side conditions on an operation's external inputs: the seek interface
returns a (nonnegative) frame index, and the slider widget only produces
values inside its `[0, TotalFrames-1]` range set by `OpenInput`. -/
def OpWF (op : Op) : Prop :=
  match op with
  | .tick inp => 0 ≤ inp.sliderPos ∧ 0 ≤ inp.seekResult
  | .skip _ seekResult => 0 ≤ seekResult
  | _ => True

instance (op : Op) : Decidable (OpWF op) := by
  cases op <;> simp [OpWF] <;> infer_instance

/-- The invariant the controller actually maintains on its two counters. -/
def Inv (s : VVState) : Prop :=
  -1 ≤ s.current_frame ∧ -1 ≤ s.grab_until

instance (s : VVState) : Decidable (Inv s) := by
  unfold Inv; infer_instance

end VideoViewer

namespace VideoViewer

/-- A seekable controller state used as a concrete witness input. -/
def vvSeek : VVState :=
  { vvInit with video_playback := true, current_frame := 3 }

/-- A transient single-step state (`grab_until = current_frame + 1`), as
`Skip` on a seekable source produces. -/
def vvStepping : VVState :=
  { vvInit with video_playback := true, current_frame := 0, grab_until := 1 }

/-- C1: on a seekable source, with `Seek(i)` returning
`clamp(i, 0, total_frames-1) + 1`, `Skip(d)` leaves
`current_frame = clamp(previous + d, 0, total_frames-1)` and arms exactly
one grab (`grab_until = current_frame + 1`). -/
theorem skip_seekable_clamps (s : VVState) (d T : Int)
    (hpb : s.video_playback = true) :
    (Skip s d (clampInt 0 (T - 1) (s.current_frame + d) + 1)).1.current_frame
      = clampInt 0 (T - 1) (s.current_frame + d) ∧
    (Skip s d (clampInt 0 (T - 1) (s.current_frame + d) + 1)).1.grab_until
      = (Skip s d (clampInt 0 (T - 1) (s.current_frame + d) + 1)).1.current_frame + 1 := by
  simp [Skip, hpb]

theorem skip_seekable_clamps_witness :
    vvSeek.video_playback = true ∧
    ((Skip vvSeek 5 (clampInt 0 (10 - 1) (vvSeek.current_frame + 5) + 1)).1.current_frame
      = clampInt 0 (10 - 1) (vvSeek.current_frame + 5) ∧
    (Skip vvSeek 5 (clampInt 0 (10 - 1) (vvSeek.current_frame + 5) + 1)).1.grab_until
      = (Skip vvSeek 5 (clampInt 0 (10 - 1) (vvSeek.current_frame + 5) + 1)).1.current_frame + 1) :=
  ⟨rfl, skip_seekable_clamps vvSeek 5 10 rfl⟩

/-- C2 counterexample: from the freshly constructed non-seekable state
(`current_frame = -1`, `grab_until = INT_MAX`), `Skip(5)` sets
`grab_until = current_frame + 5 = 4`, not `previous grab_until + 5`. -/
theorem skip_nonseekable_extend_cex :
    ¬ ((Skip vvInit 5 0).1.grab_until = vvInit.grab_until + 5 ∧
       (Skip vvInit 5 0).1.current_frame = vvInit.current_frame) := by
  decide

/-- C2 amended: on a non-seekable source, `Skip(d)` with `d ≥ 0` sets
`grab_until = current_frame + d` (letting exactly `d` more grabs through
counting from the current position, not from the previous bound), and leaves
`current_frame` unchanged. -/
theorem skip_nonseekable_forward (s : VVState) (d res : Int)
    (hpb : s.video_playback = false) (hd : 0 ≤ d) :
    (Skip s d res).1.grab_until = s.current_frame + d ∧
    (Skip s d res).1.current_frame = s.current_frame := by
  simp [Skip, hpb, ge_iff_le, hd]

theorem skip_nonseekable_forward_witness :
    vvInit.video_playback = false ∧ (0:Int) ≤ 5 ∧
    ((Skip vvInit 5 0).1.grab_until = vvInit.current_frame + 5 ∧
     (Skip vvInit 5 0).1.current_frame = vvInit.current_frame) :=
  ⟨rfl, by decide, skip_nonseekable_forward vvInit 5 0 rfl (by decide)⟩

/-- C3 counterexample: from the single-step state `current_frame = 0`,
`grab_until = 1`, two `TogglePlay` calls end at `grab_until = INT_MAX`,
not the original `1`. -/
theorem toggleplay_pair_cex :
    (TogglePlay (TogglePlay vvStepping)).grab_until ≠ vvStepping.grab_until := by
  decide

/-- C3 amended: two `TogglePlay` calls with no intervening grab restore
`grab_until` exactly when the controller was in free-run
(`grab_until = INT_MAX`) or paused exactly at the current frame
(`grab_until = current_frame` with `current_frame < INT_MAX`); from every
single-step state (`grab_until = current_frame + 1`) the pair instead ends
in free-run (`grab_until = INT_MAX`). -/
theorem toggleplay_pair_restores (s : VVState) :
    ((TogglePlay (TogglePlay s)).grab_until = s.grab_until ↔
      (s.grab_until = intMax ∨
        (s.grab_until = s.current_frame ∧ s.current_frame < intMax))) ∧
    (s.grab_until = s.current_frame + 1 →
      (TogglePlay (TogglePlay s)).grab_until = intMax) := by
  simp only [TogglePlay, intMax]
  split_ifs <;> constructor <;> omega

theorem toggleplay_pair_restores_witness :
    (vvStepping.grab_until = vvStepping.current_frame + 1 ∧
      (TogglePlay (TogglePlay vvStepping)).grab_until = intMax) ∧
    (TogglePlay (TogglePlay vvInit)).grab_until = vvInit.grab_until :=
  ⟨⟨by decide, (toggleplay_pair_restores vvStepping).2 (by decide)⟩,
    (toggleplay_pair_restores vvInit).1.mpr (Or.inl rfl)⟩

/-- C4: `Skip(d)` with `d < 0` on a non-seekable source leaves the whole
controller state unchanged and reports the backward-skip warning. -/
theorem skip_backward_nonseekable_noop (s : VVState) (d res : Int)
    (hpb : s.video_playback = false) (hd : d < 0) :
    (Skip s d res).1 = s ∧ (Skip s d res).2 = true := by
  have hnd : ¬ (d ≥ 0) := by omega
  simp [Skip, hpb, hnd]

theorem skip_backward_nonseekable_noop_witness :
    vvInit.video_playback = false ∧ (-1 : Int) < 0 ∧
    ((Skip vvInit (-1) 0).1 = vvInit ∧ (Skip vvInit (-1) 0).2 = true) :=
  ⟨rfl, by decide, skip_backward_nonseekable_noop vvInit (-1) 0 rfl (by decide)⟩

/-- C5 counterexample: a zero-stream `OpenInput` on a controller that already
has a playback interface bound hits the early return at line 198 and keeps
the previous binding, so the call does not leave the controller with no
bound source. -/
theorem openinput_zero_streams_cex :
    ¬ ((OpenInput vvSeek
        { numStreams := 0, hasPlayback := false, totalFrames := 0 }).1.video_playback
      = false) := by
  decide

/-- C5 amended: opening a source that reports zero streams reports
`SourceError` and returns early, leaving the entire controller state
unchanged — `current_frame` untouched and the playback binding exactly as it
was before the call; the controller therefore ends with no bound source
precisely when it was idle before the call. -/
theorem openinput_zero_streams_noop (s : VVState) (src : SourceInfo)
    (hz : src.numStreams = 0) :
    (OpenInput s src).2 = true ∧ (OpenInput s src).1 = s := by
  simp [OpenInput, hz]

theorem openinput_zero_streams_noop_witness :
    ({ numStreams := 0, hasPlayback := false, totalFrames := 0 : SourceInfo }.numStreams = 0) ∧
    ((OpenInput vvSeek { numStreams := 0, hasPlayback := false, totalFrames := 0 }).2 = true ∧
     (OpenInput vvSeek { numStreams := 0, hasPlayback := false, totalFrames := 0 }).1 = vvSeek) :=
  ⟨rfl, openinput_zero_streams_noop vvSeek
    { numStreams := 0, hasPlayback := false, totalFrames := 0 } rfl⟩

end VideoViewer

namespace VideoViewer

/-- C6 counterexample: opening a one-stream source with a bound playback
interface that reports the unbounded (`INT_MAX`) total frame count does not
set `grab_until = 0`: the `TotalFrames() < INT_MAX` test fails, so the
controller stays in free-run even though the source is seekable. -/
theorem openinput_seekable_pause_cex :
    ¬ ((OpenInput vvInit
        { numStreams := 1, hasPlayback := true, totalFrames := intMax }).1.grab_until = 0) := by
  decide

/-- C6 amended: after a successful `OpenInput`, `grab_until` is `0` exactly
when a playback interface is bound and it reports a finite
(`< INT_MAX`) total frame count; otherwise (in particular for every
non-seekable source) `grab_until` keeps its previous value, the `INT_MAX`
free-run sentinel from construction. -/
theorem openinput_sets_bound (s : VVState) (src : SourceInfo)
    (hnz : src.numStreams ≠ 0) :
    (OpenInput s src).1.grab_until =
      (if src.hasPlayback = true ∧ src.totalFrames < intMax then 0 else s.grab_until) ∧
    (OpenInput s src).1.video_playback = src.hasPlayback := by
  cases hp : src.hasPlayback <;>
    by_cases hf : src.totalFrames < intMax <;>
    simp [OpenInput, hnz, TotalFrames, hp, hf]

theorem openinput_sets_bound_witness :
    ({ numStreams := 1, hasPlayback := true, totalFrames := 100 : SourceInfo }.numStreams ≠ 0) ∧
    ((OpenInput vvInit { numStreams := 1, hasPlayback := true, totalFrames := 100 }).1.grab_until =
      (if { numStreams := 1, hasPlayback := true, totalFrames := 100 : SourceInfo }.hasPlayback = true ∧
           { numStreams := 1, hasPlayback := true, totalFrames := 100 : SourceInfo }.totalFrames < intMax
       then 0 else vvInit.grab_until) ∧
     (OpenInput vvInit { numStreams := 1, hasPlayback := true, totalFrames := 100 }).1.video_playback
       = { numStreams := 1, hasPlayback := true, totalFrames := 100 : SourceInfo }.hasPlayback) :=
  ⟨by decide,
    openinput_sets_bound vvInit { numStreams := 1, hasPlayback := true, totalFrames := 100 } (by decide)⟩

/-- C7 counterexample: a slider move on the non-seekable freshly constructed
controller does change `grab_until`: the tick sets it to the slider position
plus one even though no playback interface is bound. -/
theorem tick_slider_nonseekable_cex :
    (Tick vvInit
      { guiChanged := true, sliderPos := 5, seekResult := 0, grabSuccess := false
        }).state.grab_until ≠ vvInit.grab_until := by
  decide

/-- C7 amended: in the slider block of a tick whose position control was
user-moved, the seek (position becomes `seek_result - 1`) is performed if and
only if the source is seekable; `grab_until = position + 1` (arming exactly
one grab) is set unconditionally, also for a non-seekable source, with the
position then being the raw slider value. -/
theorem tick_slider_arms (s : VVState) (inp : TickInput)
    (hg : inp.guiChanged = true) :
    (sliderStep s inp).current_frame =
      (if s.video_playback = true then inp.seekResult - 1 else inp.sliderPos) ∧
    (sliderStep s inp).grab_until = (sliderStep s inp).current_frame + 1 := by
  cases hp : s.video_playback <;> simp [sliderStep, hg, hp]

theorem tick_slider_arms_witness :
    ({ guiChanged := true, sliderPos := 5, seekResult := 0, grabSuccess := false
       : TickInput }.guiChanged = true) ∧
    ((sliderStep vvInit { guiChanged := true, sliderPos := 5, seekResult := 0, grabSuccess := false }).current_frame =
      (if vvInit.video_playback = true
       then ({ guiChanged := true, sliderPos := 5, seekResult := 0, grabSuccess := false : TickInput }.seekResult - 1)
       else { guiChanged := true, sliderPos := 5, seekResult := 0, grabSuccess := false : TickInput }.sliderPos) ∧
     (sliderStep vvInit { guiChanged := true, sliderPos := 5, seekResult := 0, grabSuccess := false }).grab_until =
      (sliderStep vvInit { guiChanged := true, sliderPos := 5, seekResult := 0, grabSuccess := false }).current_frame + 1) :=
  ⟨rfl,
    tick_slider_arms vvInit
      { guiChanged := true, sliderPos := 5, seekResult := 0, grabSuccess := false } rfl⟩

/-- C8: in every tick, `video.Grab` is called exactly when
`current_frame < grab_until` (taken after the slider block); the state after
the tick is the post-slider state with `current_frame` incremented by one
exactly when a grab was attempted and succeeded, in which case the images
are forwarded to the display; a failed grab changes nothing further. -/
theorem tick_grab_behaviour (s : VVState) (inp : TickInput) :
    ((Tick s inp).attempted = true ↔
      (sliderStep s inp).current_frame < (sliderStep s inp).grab_until) ∧
    (Tick s inp).state =
      (if (sliderStep s inp).current_frame < (sliderStep s inp).grab_until ∧
          inp.grabSuccess = true
       then { sliderStep s inp with
                current_frame := (sliderStep s inp).current_frame + 1 }
       else sliderStep s inp) ∧
    ((Tick s inp).forwarded = true ↔
      ((sliderStep s inp).current_frame < (sliderStep s inp).grab_until ∧
        inp.grabSuccess = true)) := by
  by_cases h1 : (sliderStep s inp).current_frame < (sliderStep s inp).grab_until <;>
    cases h2 : inp.grabSuccess <;>
    simp [Tick, h1, h2]

end VideoViewer

namespace VideoViewer

/-- C9 counterexample: the freshly constructed state satisfies
`0 ≤ grab_until`, but one `TogglePlay` from it (space bar pressed before the
first grab, while `current_frame = -1`) assigns `grab_until = -1`, breaking
the claimed invariant `grab_until ≥ 0`. -/
theorem grab_until_nonneg_cex :
    0 ≤ vvInit.grab_until ∧ (step Op.togglePlay vvInit).grab_until < 0 := by
  decide

/-- C9 amended: the invariant the controller actually preserves is
`current_frame ≥ -1 ∧ grab_until ≥ -1`.  It holds in the constructed state
and is preserved by every operation, provided the external seek interface
returns a nonnegative frame index and the slider widget stays inside its
nonnegative range; `grab_until = -1` is reachable (pause before the first
grab), so `grab_until ≥ 0` is not an invariant. -/
theorem grab_until_inv :
    Inv vvInit ∧
    ∀ (op : Op) (s : VVState), OpWF op → Inv s → Inv (step op s) := by
  refine ⟨by decide, ?_⟩
  intro op s hwf hs
  obtain ⟨hcf, hgu⟩ := hs
  cases op with
  | openInput src =>
      refine ⟨?_, ?_⟩ <;>
        simp only [step, OpenInput, Inv] <;>
        (try split_ifs) <;> (try simp) <;> omega
  | tick inp =>
      obtain ⟨hsl, hsk⟩ := hwf
      refine ⟨?_, ?_⟩ <;>
        simp only [step, Tick, sliderStep, Inv] <;>
        (try split_ifs) <;> (try simp) <;> omega
  | togglePlay =>
      refine ⟨?_, ?_⟩ <;>
        simp only [step, TogglePlay, Inv, intMax] <;>
        (try split_ifs) <;> (try simp) <;> omega
  | skip frames seekResult =>
      have hsk : (0:Int) ≤ seekResult := hwf
      refine ⟨?_, ?_⟩ <;>
        simp only [step, Skip, Inv] <;>
        (try split_ifs) <;> (try simp) <;> omega
  | toggleRecord r =>
      refine ⟨?_, ?_⟩ <;>
        simp only [step, ToggleRecord, Inv] <;>
        (try split_ifs) <;> (try simp) <;> omega
  | recordOne =>
      exact ⟨hcf, hgu⟩
  | toggleWait =>
      exact ⟨hcf, hgu⟩
  | toggleDiscard =>
      exact ⟨hcf, hgu⟩
  | stopRecording r =>
      refine ⟨?_, ?_⟩ <;>
        simp only [step, StopRecording, Inv] <;>
        (try split_ifs) <;> (try simp) <;> omega

theorem grab_until_inv_witness :
    OpWF Op.togglePlay ∧ Inv vvInit ∧ Inv (step Op.togglePlay vvInit) :=
  ⟨by decide, grab_until_inv.1,
    grab_until_inv.2 Op.togglePlay vvInit (by decide) grab_until_inv.1⟩

/-- C10: `StopRecording` invokes `video.Stop()` exactly when the recorder
reports `IsRecording()`; the controller state is returned untouched, and the
recorder is stopped only in the recording case. -/
theorem stoprecording_guarded (s : VVState) (r : RecState) :
    ((StopRecording s r).2.2 = true ↔ r.recording = true) ∧
    (StopRecording s r).1 = s ∧
    (StopRecording s r).2.1 = (if r.recording then { recording := false } else r) := by
  cases hr : r.recording <;> simp [StopRecording, hr]

end VideoViewer
